import Mathlib

/-!
GitHub User Explorer: a shallow embedding of `script.js`.

The page script is modelled as pure functions over explicit state.

* `ThemeState` holds what `initTheme` / `toggleTheme` read and write: the
  `localStorage` slot named `theme`, the `data-theme` attribute of the document
  element and the text of the theme icon.
* `Page` holds what the search code reads and writes: the `hidden` class of the
  five panels, the text of the error panel, the fields of the profile panel, the
  children of the repositories container, and three logs (alerts shown, network
  requests issued, console errors).
* The network is an input: each of the two requests has a `FetchOutcome`, and a
  flag says which of the two async functions settles first.

JavaScript values are typed: the decoded profile body is a `UserData` record whose
fields may be missing, the decoded repository body is `null` or an array of `Repo`
records, and a star count is a missing value or a natural number (exact in a
JavaScript number below 2^53).
-/

namespace GithubUserExplorer

/-! ## Theme toggle (script.js lines 20-38) -/

/-- State touched by the theme code: `localStorage.getItem('theme')` (`none` when
the slot is unset), the `data-theme` attribute of the document element (`none` when
the attribute is absent) and `themeIcon.textContent`. -/
structure ThemeState where
  stored : Option String
  dataTheme : Option String
  icon : String
  deriving DecidableEq, Repr

/-- Function `updateThemeIcon`: the glyph `theme === 'dark' ? '☀️' : '🌙'`. -/
def updateThemeIcon (theme : String) : String :=
  if theme = "dark" then "☀️" else "🌙"

/-- Expression `localStorage.getItem('theme') || 'light'`: the stored string when
it is truthy (set and non-empty), otherwise the literal `light`. -/
def savedThemeOrLight (stored : Option String) : String :=
  match stored with
  | some s => if s = "" then "light" else s
  | none => "light"

/-- Function `initTheme`: applies the saved theme (or `light`) to the attribute and
the icon; the persisted slot is not written. -/
def initTheme (st : ThemeState) : ThemeState :=
  let savedTheme := savedThemeOrLight st.stored
  { st with dataTheme := some savedTheme, icon := updateThemeIcon savedTheme }

/-- Function `toggleTheme`: reads the applied attribute, picks `light` when it is
exactly `dark` and `dark` otherwise, then writes attribute, slot and icon. -/
def toggleTheme (st : ThemeState) : ThemeState :=
  let newTheme := if st.dataTheme = some "dark" then "light" else "dark"
  { stored := some newTheme, dataTheme := some newTheme, icon := updateThemeIcon newTheme }

/-! ## Data received from the remote API -/

/-- The fields of the profile body that `displayUserProfile` reads. A field absent
from the body (or `null`) is `none`. -/
structure UserData where
  login : Option String
  name : Option String
  bio : Option String
  location : Option String
  avatar_url : Option String
  html_url : Option String
  followers : Option Nat
  following : Option Nat
  deriving DecidableEq, Repr

/-- The fields of one repository object that `displayRepositories` reads. -/
structure Repo where
  name : String
  description : Option String
  html_url : String
  stargazers_count : Option Nat
  deriving DecidableEq, Repr

/-- JavaScript truthiness of an optional string: present and non-empty. -/
def truthy (o : Option String) : Bool :=
  match o with
  | some s => decide (s ≠ "")
  | none => false

/-- Expression `x || d` for an optional string `x` and a string literal `d`. -/
def orElse (o : Option String) (d : String) : String :=
  match o with
  | some s => if s = "" then d else s
  | none => d

/-- Expression `n || 0` for an optional count: a missing count and `0` both give `0`. -/
def countOrZero (n : Option Nat) : Nat := n.getD 0

/-- Template interpolation of an optional string: a missing value prints as
`undefined`. -/
def interpolate (o : Option String) : String :=
  match o with
  | some s => s
  | none => "undefined"

/-! ## The page -/

/-- An anchor element built by `displayRepositories` for one repository. -/
structure Card where
  href : String
  target : String
  rel : String
  className : String
  innerHTML : String
  deriving DecidableEq, Repr

/-- A child of `repositoriesContainer`: markup assigned through `innerHTML`, or an
appended repository card. -/
inductive Node
  | markup (html : String)
  | card (c : Card)
  deriving DecidableEq, Repr

/-- The profile panel fields written by `displayUserProfile`. -/
structure ProfilePanel where
  avatarSrc : String
  avatarAlt : String
  username : String
  fullName : String
  fullNameHidden : Bool
  bio : String
  bioHidden : Bool
  location : String
  locationHidden : Bool
  followers : String
  following : String
  githubLink : String
  deriving DecidableEq, Repr

/-- The part of the document the search code touches. Each `...Hidden` flag is the
presence of the class `hidden` on the element of that name. -/
structure Page where
  loadingHidden : Bool
  errorHidden : Bool
  profileHidden : Bool
  reposHidden : Bool
  welcomeHidden : Bool
  errorText : String
  profile : ProfilePanel
  container : List Node
  inputFocused : Bool
  alerts : List String
  requests : List String
  consoleErrors : List String
  deriving DecidableEq, Repr

/-! ## Utility functions (script.js lines 47-69) -/

/-- Function `showLoading`. -/
def showLoading (p : Page) : Page :=
  { p with loadingHidden := false, profileHidden := true, reposHidden := true,
           errorHidden := true, welcomeHidden := true }

/-- Function `hideLoading`. -/
def hideLoading (p : Page) : Page :=
  { p with loadingHidden := true }

/-- Function `showError`. -/
def showError (message : String) (p : Page) : Page :=
  { p with errorText := message, errorHidden := false, profileHidden := true,
           reposHidden := true, welcomeHidden := true }

/-- Function `hideError`. -/
def hideError (p : Page) : Page :=
  { p with errorHidden := true }

/-! ## API functions (script.js lines 79-105) -/

/-- What `await fetch(url)` followed by `response.json()` can do: the transport
fails and `fetch` rejects with an error carrying `message`, or a response with a
status code arrives, whose body decodes to a value or fails to decode with a
message. -/
inductive FetchOutcome (α : Type)
  | networkError (message : String)
  | response (status : Nat) (body : Except String α)

/-- Property `response.ok`: the status is in the range 200-299. -/
def responseOk (status : Nat) : Bool := decide (200 ≤ status ∧ status ≤ 299)

/-- Function `fetchUserData`, given the outcome of its `fetch` call. The result is
the fulfilment value, or the `message` of the error the promise rejects with. -/
def fetchUserData (outcome : FetchOutcome UserData) : Except String UserData :=
  match outcome with
  | .networkError message => .error message
  | .response status body =>
    if !responseOk status then
      if status = 404 then .error "User not found"
      else .error ("API Error: " ++ toString status)
    else body

/-- Function `fetchUserRepositories`, given the outcome of its `fetch` call. The
decoded body is `null` (`none`) or an array. -/
def fetchUserRepositories (outcome : FetchOutcome (Option (List Repo))) :
    Except String (Option (List Repo)) :=
  match outcome with
  | .networkError message => .error message
  | .response status body =>
    if !responseOk status then .error ("Failed to fetch repositories: " ++ toString status)
    else body

/-- Builtin `Promise.all` on two promises: fulfilled with both values when both
fulfil, rejected with the reason of the promise that rejects first otherwise.
`secondSettlesFirst` says which of the two settles first. -/
def promiseAll {α β : Type} (first : Except String α) (second : Except String β)
    (secondSettlesFirst : Bool) : Except String (α × β) :=
  match first, second with
  | .ok a, .ok b => .ok (a, b)
  | .error e, .ok _ => .error e
  | .ok _, .error e => .error e
  | .error e₁, .error e₂ => .error (if secondSettlesFirst then e₂ else e₁)

/-! ## Display functions (script.js lines 114-212) -/

/-- Function `displayUserProfile`. -/
def displayUserProfile (userData : UserData) (p : Page) : Page :=
  { p with
    profile :=
      { avatarSrc := orElse userData.avatar_url ""
        avatarAlt := interpolate userData.login ++ "\x27s avatar"
        username := orElse userData.login "N/A"
        fullName := if truthy userData.name then orElse userData.name "" else ""
        fullNameHidden := !truthy userData.name
        bio := if truthy userData.bio then orElse userData.bio "" else ""
        bioHidden := !truthy userData.bio
        location := if truthy userData.location then orElse userData.location "" else ""
        locationHidden := !truthy userData.location
        followers := toString (countOrZero userData.followers)
        following := toString (countOrZero userData.following)
        githubLink := orElse userData.html_url "#" }
    welcomeHidden := true
    profileHidden := false }

/-- Serialisation of one character of a text node, as `innerHTML` does it (HTML
Standard, "escaping a string", outside attribute mode): `&` becomes `&amp;`,
U+00A0 becomes `&nbsp;`, `<` becomes `&lt;`, `>` becomes `&gt;`; every other
character is kept. -/
def escapeChar (c : Char) : List Char :=
  if c = '&' then ['&', 'a', 'm', 'p', ';']
  else if c = Char.ofNat 160 then ['&', 'n', 'b', 's', 'p', ';']
  else if c = '<' then ['&', 'l', 't', ';']
  else if c = '>' then ['&', 'g', 't', ';']
  else [c]

/-- Serialisation of the characters of a text node. -/
def escapeChars : List Char → List Char
  | [] => []
  | c :: cs => escapeChar c ++ escapeChars cs

/-- Function `escapeHtml`: the text becomes the content of a fresh `div` and the
serialisation of that `div` is returned. -/
def escapeHtml (text : String) : String := String.mk (escapeChars text.data)

/-- Comparator `(a, b) => (b.stargazers_count || 0) - (a.stargazers_count || 0)`. -/
def compareStars (a b : Repo) : Int :=
  (countOrZero b.stargazers_count : Int) - (countOrZero a.stargazers_count : Int)

/-- Insertion of `x` into a list, in front of the first element `y` that the
comparator does not put before `x` (`cmp x y ≤ 0`). -/
def sortInsert {α : Type} (cmp : α → α → Int) (x : α) : List α → List α
  | [] => [x]
  | y :: ys => if cmp x y ≤ 0 then x :: y :: ys else y :: sortInsert cmp x ys

/-- Builtin `Array.prototype.sort` with a comparator, as a stable insertion sort
(ECMAScript requires the builtin to be stable). -/
def arraySort {α : Type} (cmp : α → α → Int) : List α → List α
  | [] => []
  | x :: xs => sortInsert cmp x (arraySort cmp xs)

/-- The markup assigned to `innerHTML` of a repository card, with its three
interpolated texts. -/
def cardMarkup (name description stars : String) : String :=
  "\n            <h3 class=\"repo-name\">" ++ name ++ "</h3>\n" ++
  "            <p class=\"repo-description\">" ++ description ++ "</p>\n" ++
  "            <div class=\"repo-stars\">" ++ stars ++ "</div>\n        "

/-- The body of the `forEach` callback of `displayRepositories`: the anchor built
for one repository. -/
def repoCard (repo : Repo) : Card :=
  { href := repo.html_url
    target := "_blank"
    rel := "noopener noreferrer"
    className := "repo-card"
    innerHTML :=
      cardMarkup (escapeHtml repo.name)
        (if truthy repo.description then escapeHtml (orElse repo.description "")
         else "<em>No description</em>")
        (toString (countOrZero repo.stargazers_count)) }

/-- The placeholder assigned to the container when there is no repository. -/
def noRepositoriesMarkup : String :=
  "<p style=\"text-align: center; color: var(--text-secondary);\">No public repositories found.</p>"

/-- The constant `sortedRepos` of `displayRepositories`. -/
def sortedRepos (repositories : List Repo) : List Repo :=
  arraySort compareStars repositories

/-- Function `displayRepositories`; `none` is a `null` argument. -/
def displayRepositories (repositories : Option (List Repo)) (p : Page) : Page :=
  match repositories with
  | none => { p with container := [Node.markup noRepositoriesMarkup], reposHidden := false }
  | some [] => { p with container := [Node.markup noRepositoriesMarkup], reposHidden := false }
  | some (r :: rs) =>
    { p with container := (sortedRepos (r :: rs)).map (fun repo => Node.card (repoCard repo))
             reposHidden := false }

/-! ## Search (script.js lines 220-261) -/

/-- White space and line terminators of ECMAScript, the characters that
`String.prototype.trim` removes. -/
def isJsWhiteSpace (c : Char) : Bool :=
  let n := c.toNat
  n = 9 || n = 10 || n = 11 || n = 12 || n = 13 || n = 32 || n = 160 || n = 5760 ||
  (8192 ≤ n && n ≤ 8202) || n = 8232 || n = 8233 || n = 8239 || n = 8287 ||
  n = 12288 || n = 65279

/-- Builtin `String.prototype.trim`. -/
def trim (s : String) : String :=
  String.mk ((s.data.dropWhile isJsWhiteSpace).reverse.dropWhile isJsWhiteSpace).reverse

/-- URL requested by `fetchUserData`. -/
def userUrl (username : String) : String :=
  "https://api.github.com/users/" ++ username

/-- URL requested by `fetchUserRepositories`. -/
def reposUrl (username : String) : String :=
  "https://api.github.com/users/" ++ username ++ "/repos?sort=stars&order=desc"

/-- The two requests of one search as the network answers them, and which of the
two async functions settles first. -/
structure Network where
  profile : FetchOutcome UserData
  repositories : FetchOutcome (Option (List Repo))
  repositoriesSettleFirst : Bool

/-- Function `handleSearch` up to its `await`: validation of the trimmed input,
then `showLoading`, `hideError` and the two `fetch` calls. The first component is
the username when the search was started, `none` when validation returned early. -/
def handleSearchBegin (input : String) (p : Page) : Option String × Page :=
  let username := trim input
  if username = "" then
    (none, { p with alerts := p.alerts ++ ["Please enter a GitHub username"],
                    inputFocused := true })
  else
    let p₁ := hideError (showLoading p)
    (some username, { p₁ with requests := p₁.requests ++ [userUrl username, reposUrl username] })

/-- Function `handleSearch` after its `await`: the rest of the `try` block when
`Promise.all` fulfilled, the `catch` block when it rejected with an error whose
message is `message`. -/
def handleSearchSettle (result : Except String (UserData × Option (List Repo))) (p : Page) :
    Page :=
  match result with
  | .ok (userData, repositories) =>
    displayRepositories repositories (displayUserProfile userData (hideLoading p))
  | .error message =>
    let p₁ := hideLoading p
    let p₂ := if message = "User not found" then showError "User not found" p₁
              else showError ("Error: " ++ message) p₁
    { p₂ with consoleErrors := p₂.consoleErrors ++ [message] }

/-- Function `handleSearch`, run to completion with the network answering as `net`. -/
def handleSearch (input : String) (net : Network) (p : Page) : Page :=
  match handleSearchBegin input p with
  | (none, p₁) => p₁
  | (some _, p₁) =>
    handleSearchSettle
      (promiseAll (fetchUserData net.profile) (fetchUserRepositories net.repositories)
        net.repositoriesSettleFirst) p₁

/-! ## View states -/

/-- The four view states of the render layer. -/
inductive ViewState
  | welcome
  | loading
  | error
  | results
  deriving DecidableEq, Repr

/-- Whether the page shows the given view state: `welcome`, `loading` and `error`
mean that panel alone is visible; `results` means the profile and the repositories
section are visible and the other three panels are hidden. -/
def shows (p : Page) : ViewState → Bool
  | .welcome => p.loadingHidden && p.errorHidden && p.profileHidden && p.reposHidden &&
      !p.welcomeHidden
  | .loading => !p.loadingHidden && p.errorHidden && p.profileHidden && p.reposHidden &&
      p.welcomeHidden
  | .error => p.loadingHidden && !p.errorHidden && p.profileHidden && p.reposHidden &&
      p.welcomeHidden
  | .results => p.loadingHidden && p.errorHidden && !p.profileHidden && !p.reposHidden &&
      p.welcomeHidden

/-- The view states the page shows. -/
def shownViewStates (p : Page) : List ViewState :=
  [ViewState.welcome, ViewState.loading, ViewState.error, ViewState.results].filter (shows p)

/-- The error message, the profile and the repositories section are visible
together; the loading indicator and the welcome section are hidden. -/
def showsResultsWithError (p : Page) : Bool :=
  p.loadingHidden && !p.errorHidden && !p.profileHidden && !p.reposHidden && p.welcomeHidden

/-! ## Interleaved searches -/

/-- The page together with the number of searches started and not yet settled. -/
structure Session where
  page : Page
  pending : Nat
  deriving DecidableEq, Repr

/-- What can happen to the page: `handleSearch` is called with the given input, or
the `await` of a pending call resumes with the result of `Promise.all`. -/
inductive SearchEvent
  | search (input : String)
  | settle (result : Except String (UserData × Option (List Repo)))

/-- One event. A `settle` needs a pending search. With `overlap = false` a search
can only start when no other search is pending. -/
def step (overlap : Bool) (s : Session) : SearchEvent → Option Session
  | .search input =>
    match handleSearchBegin input s.page with
    | (none, p) => some { page := p, pending := s.pending }
    | (some _, p) =>
      if overlap || s.pending = 0 then some { page := p, pending := s.pending + 1 }
      else none
  | .settle result =>
    if s.pending = 0 then none
    else some { page := handleSearchSettle result s.page, pending := s.pending - 1 }

/-- A sequence of events, from the left; `none` when some event cannot happen. -/
def runEvents (overlap : Bool) (s : Session) : List SearchEvent → Option Session
  | [] => some s
  | e :: es =>
    match step overlap s e with
    | some s₁ => runEvents overlap s₁ es
    | none => none

/-- The page as it is loaded: only the welcome section is visible. -/
def initialPage : Page :=
  { loadingHidden := true, errorHidden := true, profileHidden := true, reposHidden := true,
    welcomeHidden := false, errorText := "",
    profile :=
      { avatarSrc := "", avatarAlt := "", username := "", fullName := "", fullNameHidden := false,
        bio := "", bioHidden := false, location := "", locationHidden := false,
        followers := "0", following := "0", githubLink := "#" }
    container := [], inputFocused := true, alerts := [], requests := [], consoleErrors := [] }

/-! ## Notions used to state the properties -/

/-- The star count the comparator and the card use: `repo.stargazers_count || 0`. -/
def stars (repo : Repo) : Nat := countOrZero repo.stargazers_count

/-- The invariant of the event system: the page shows one of the four view states or
error and results together; without overlap, nothing is pending and one of the
four view states is shown, or one search is pending and Loading is shown. -/
def SessionInv (overlap : Bool) (s : Session) : Prop :=
  ((∃ v, shows s.page v = true) ∨ showsResultsWithError s.page = true) ∧
  (overlap = true ∨ (s.pending = 0 ∧ ∃ v, shows s.page v = true) ∨
    (s.pending = 1 ∧ shows s.page ViewState.loading = true))

/-- Whether the list `l` starts with the characters `pre`. -/
def startsWith : List Char → List Char → Bool
  | [], _ => true
  | _ :: _, [] => false
  | a :: as, b :: bs => a == b && startsWith as bs

/-- The three character references named by the specification. -/
def namedEntities : List (List Char) :=
  [['&', 'a', 'm', 'p', ';'], ['&', 'l', 't', ';'], ['&', 'g', 't', ';']]

/-- The four character references `escapeChar` produces. -/
def htmlEntities : List (List Char) :=
  ['&', 'n', 'b', 's', 'p', ';'] :: namedEntities

/-- Whether every `&` of the text is the first character of one of the given
character references. -/
def ampersandsBegin (entities : List (List Char)) : List Char → Bool
  | [] => true
  | c :: cs =>
    (c != '&' || entities.any (fun e => startsWith e (c :: cs))) &&
      ampersandsBegin entities cs

/-- Decoding of the four character references back to their characters. The first
argument is the number of characters still to skip, the tail of a reference already
decoded. -/
def decodeFrom : Nat → List Char → List Char
  | _, [] => []
  | k + 1, _ :: cs => decodeFrom k cs
  | 0, c :: cs =>
    if startsWith ['&', 'a', 'm', 'p', ';'] (c :: cs) then '&' :: decodeFrom 4 cs
    else if startsWith ['&', 'n', 'b', 's', 'p', ';'] (c :: cs) then
      Char.ofNat 160 :: decodeFrom 5 cs
    else if startsWith ['&', 'l', 't', ';'] (c :: cs) then '<' :: decodeFrom 3 cs
    else if startsWith ['&', 'g', 't', ';'] (c :: cs) then '>' :: decodeFrom 3 cs
    else c :: decodeFrom 0 cs

/-- Decoding of the character references of a string. -/
def decodeEntities (s : String) : String := String.mk (decodeFrom 0 s.data)

/-! ## Theme: theorems -/

/-- Claim C8, as stated, fails: after `initTheme` on a fresh browser (slot unset) the
applied theme is `light`, and two calls of `toggleTheme` leave the slot holding
`light` instead of unset; and an applied attribute that is neither `light` nor
`dark` (here `blue`, applied by `initTheme` from the slot) is `light` after two calls. -/
theorem toggleTheme_twice_unset_slot_changes :
    (toggleTheme (toggleTheme (initTheme ⟨none, none, ""⟩))).stored = some "light" ∧
    (initTheme ⟨none, none, ""⟩).stored = none ∧
    (toggleTheme (toggleTheme (initTheme ⟨none, none, ""⟩))).stored ≠
      (initTheme ⟨none, none, ""⟩).stored ∧
    (initTheme ⟨some "blue", none, ""⟩).dataTheme = some "blue" ∧
    (toggleTheme (toggleTheme (initTheme ⟨some "blue", none, ""⟩))).dataTheme = some "light" := by
  decide

/-- Claim C8, amended: when the applied `data-theme` attribute is `light` or `dark`,
two calls of `toggleTheme` give the attribute its value from before the first call and
leave the persisted slot holding that same value; so the slot is back at its original
value exactly when it held the applied theme to begin with. -/
theorem toggleTheme_twice (st : ThemeState)
    (h : st.dataTheme = some "light" ∨ st.dataTheme = some "dark") :
    (toggleTheme (toggleTheme st)).dataTheme = st.dataTheme ∧
    (toggleTheme (toggleTheme st)).stored = st.dataTheme ∧
    ((toggleTheme (toggleTheme st)).stored = st.stored ↔ st.stored = st.dataTheme) := by
  have key : (toggleTheme (toggleTheme st)).dataTheme = st.dataTheme ∧
      (toggleTheme (toggleTheme st)).stored = st.dataTheme := by
    rcases h with h | h <;> simp [toggleTheme, h]
  refine ⟨key.1, key.2, ?_⟩
  rw [key.2]
  exact eq_comm

/-- Instance of the preceding theorem at a concrete input: slot and attribute both `dark`. -/
theorem toggleTheme_twice_witness :
    (toggleTheme (toggleTheme ⟨some "dark", some "dark", "☀️"⟩)).dataTheme = some "dark" ∧
    (toggleTheme (toggleTheme ⟨some "dark", some "dark", "☀️"⟩)).stored = some "dark" :=
  ⟨(toggleTheme_twice ⟨some "dark", some "dark", "☀️"⟩ (Or.inr rfl)).1,
   (toggleTheme_twice ⟨some "dark", some "dark", "☀️"⟩ (Or.inr rfl)).2.1⟩

/-- Claim C9, as stated, fails: a slot holding the string `blue` is applied verbatim,
so the `data-theme` attribute is neither `light` nor `dark`. -/
theorem initTheme_invalid_slot_applied_verbatim :
    (initTheme ⟨some "blue", none, ""⟩).dataTheme = some "blue" ∧
    (initTheme ⟨some "blue", none, ""⟩).dataTheme ≠ some "light" ∧
    (initTheme ⟨some "blue", none, ""⟩).dataTheme ≠ some "dark" := by
  decide

/-- Claim C9, amended: the attribute `initTheme` applies is `dark` exactly when the
slot holds `dark`; it is `light` exactly when the slot is unset, empty or holds
`light`; in every other case it is the slot content itself. The icon is the glyph
of the dark theme exactly when the slot holds `dark`, and the slot is not written. -/
theorem initTheme_applied (st : ThemeState) :
    ((initTheme st).dataTheme = some "dark" ↔ st.stored = some "dark") ∧
    ((initTheme st).dataTheme = some "light" ↔
      (st.stored = none ∨ st.stored = some "" ∨ st.stored = some "light")) ∧
    ((initTheme st).dataTheme = some "light" ∨ (initTheme st).dataTheme = st.stored) ∧
    ((initTheme st).icon = "☀️" ↔ st.stored = some "dark") ∧
    (initTheme st).stored = st.stored := by
  obtain ⟨stored, attr, icon⟩ := st
  cases stored with
  | none => simp [initTheme, savedThemeOrLight, updateThemeIcon]
  | some s =>
    by_cases h : s = ""
    · subst h
      simp [initTheme, savedThemeOrLight, updateThemeIcon]
    · by_cases hd : s = "dark"
      · subst hd
        simp [initTheme, savedThemeOrLight, updateThemeIcon]
      · have hg : ("🌙" : String) ≠ "☀️" := by decide
        simp [initTheme, savedThemeOrLight, updateThemeIcon, h, hd, hg]

/-! ## Search: supporting lemmas -/

theorem trim_eq_empty_of_all_white (input : String)
    (h : ∀ c ∈ input.data, isJsWhiteSpace c = true) : trim input = "" := by
  have h₁ : input.data.dropWhile isJsWhiteSpace = [] := by
    rw [List.dropWhile_eq_nil_iff]
    exact h
  simp [trim, h₁]

theorem handleSearchBegin_of_trim_ne (input : String) (p : Page) (h : trim input ≠ "") :
    handleSearchBegin input p =
      (some (trim input),
        { hideError (showLoading p) with
          requests := p.requests ++ [userUrl (trim input), reposUrl (trim input)] }) := by
  simp [handleSearchBegin, h, hideError, showLoading]

theorem handleSearchBegin_flags (input : String) (p : Page) (h : trim input ≠ "") :
    (handleSearchBegin input p).2.loadingHidden = false ∧
    (handleSearchBegin input p).2.errorHidden = true ∧
    (handleSearchBegin input p).2.profileHidden = true ∧
    (handleSearchBegin input p).2.reposHidden = true ∧
    (handleSearchBegin input p).2.welcomeHidden = true ∧
    (handleSearchBegin input p).2.errorText = p.errorText := by
  rw [handleSearchBegin_of_trim_ne input p h]
  simp [hideError, showLoading]

theorem handleSearch_of_trim_ne (input : String) (net : Network) (p : Page)
    (h : trim input ≠ "") :
    handleSearch input net p =
      handleSearchSettle
        (promiseAll (fetchUserData net.profile) (fetchUserRepositories net.repositories)
          net.repositoriesSettleFirst) (handleSearchBegin input p).2 := by
  simp [handleSearch, handleSearchBegin, h]

theorem displayRepositories_flags (repositories : Option (List Repo)) (p : Page) :
    (displayRepositories repositories p).loadingHidden = p.loadingHidden ∧
    (displayRepositories repositories p).errorHidden = p.errorHidden ∧
    (displayRepositories repositories p).profileHidden = p.profileHidden ∧
    (displayRepositories repositories p).reposHidden = false ∧
    (displayRepositories repositories p).welcomeHidden = p.welcomeHidden ∧
    (displayRepositories repositories p).errorText = p.errorText := by
  rcases repositories with _ | _ | ⟨r, rs⟩ <;> simp [displayRepositories]

theorem handleSearchSettle_ok_flags (userData : UserData) (repositories : Option (List Repo))
    (p : Page) :
    (handleSearchSettle (.ok (userData, repositories)) p).loadingHidden = true ∧
    (handleSearchSettle (.ok (userData, repositories)) p).errorHidden = p.errorHidden ∧
    (handleSearchSettle (.ok (userData, repositories)) p).profileHidden = false ∧
    (handleSearchSettle (.ok (userData, repositories)) p).reposHidden = false ∧
    (handleSearchSettle (.ok (userData, repositories)) p).welcomeHidden = true := by
  have h := displayRepositories_flags repositories (displayUserProfile userData (hideLoading p))
  simp only [handleSearchSettle]
  refine ⟨h.1.trans rfl, h.2.1.trans rfl, h.2.2.1.trans rfl, h.2.2.2.1, h.2.2.2.2.1.trans rfl⟩

theorem handleSearchSettle_error_flags (message : String) (p : Page) :
    (handleSearchSettle (.error message) p).loadingHidden = true ∧
    (handleSearchSettle (.error message) p).errorHidden = false ∧
    (handleSearchSettle (.error message) p).profileHidden = true ∧
    (handleSearchSettle (.error message) p).reposHidden = true ∧
    (handleSearchSettle (.error message) p).welcomeHidden = true := by
  by_cases h : message = "User not found" <;> simp [handleSearchSettle, h, showError, hideLoading]

/-! ## Search: theorems -/

/-- Claim C10, as stated, fails: a search started on a page whose error panel holds
the message of an earlier failed search leaves that message in the (now hidden)
panel; the text is not the empty string. -/
theorem enterLoading_keeps_error_text :
    (handleSearchBegin "octocat" (showError "User not found" initialPage)).2.errorText =
      "User not found" ∧
    (handleSearchBegin "octocat" (showError "User not found" initialPage)).2.errorText ≠ "" ∧
    (hideError (showLoading (showError "User not found" initialPage))).errorText ≠ "" := by
  decide

/-- Claim C10, amended: for every starting page, the Loading transition of
`handleSearch` (`showLoading` followed by `hideError`) leaves the loading indicator
visible and the four other panels hidden, and leaves the text content of the error
panel as it was. -/
theorem enterLoading_frame (input : String) (p : Page) (h : trim input ≠ "") :
    (handleSearchBegin input p).2.loadingHidden = false ∧
    (handleSearchBegin input p).2.errorHidden = true ∧
    (handleSearchBegin input p).2.profileHidden = true ∧
    (handleSearchBegin input p).2.reposHidden = true ∧
    (handleSearchBegin input p).2.welcomeHidden = true ∧
    (handleSearchBegin input p).2.errorText = p.errorText ∧
    (hideError (showLoading p)).errorText = p.errorText := by
  have hb := handleSearchBegin_flags input p h
  exact ⟨hb.1, hb.2.1, hb.2.2.1, hb.2.2.2.1, hb.2.2.2.2.1, hb.2.2.2.2.2, rfl⟩

/-- Instance of the preceding theorem at a concrete input: input `octocat` on a page showing an error. -/
theorem enterLoading_frame_witness :
    trim "octocat" ≠ "" ∧
    (handleSearchBegin "octocat" (showError "User not found" initialPage)).2.loadingHidden
      = false ∧
    (handleSearchBegin "octocat" (showError "User not found" initialPage)).2.errorText =
      (showError "User not found" initialPage).errorText :=
  ⟨by decide,
   (enterLoading_frame "octocat" (showError "User not found" initialPage) (by decide)).1,
   (enterLoading_frame "octocat" (showError "User not found" initialPage) (by decide)).2.2.2.2.2.1⟩

/-- Claim C5: when the input is empty or holds only white space, `handleSearch` shows
the validation prompt and returns: the five visibility flags, the error text, the
profile panel and the repositories container are unchanged and no request is
issued, whatever the network would have answered. -/
theorem handleSearch_blank_input (input : String) (net : Network) (p : Page)
    (h : ∀ c ∈ input.data, isJsWhiteSpace c = true) :
    (handleSearch input net p).loadingHidden = p.loadingHidden ∧
    (handleSearch input net p).errorHidden = p.errorHidden ∧
    (handleSearch input net p).profileHidden = p.profileHidden ∧
    (handleSearch input net p).reposHidden = p.reposHidden ∧
    (handleSearch input net p).welcomeHidden = p.welcomeHidden ∧
    (handleSearch input net p).errorText = p.errorText ∧
    (handleSearch input net p).profile = p.profile ∧
    (handleSearch input net p).container = p.container ∧
    (handleSearch input net p).requests = p.requests ∧
    (handleSearch input net p).alerts = p.alerts ++ ["Please enter a GitHub username"] := by
  have ht := trim_eq_empty_of_all_white input h
  simp [handleSearch, handleSearchBegin, ht]

/-- Instance of the preceding theorem at a concrete input: the input is a space, a tab and a line
feed; the request log of the initial page stays empty. -/
theorem handleSearch_blank_input_witness :
    (∀ c ∈ (" \t\n" : String).data, isJsWhiteSpace c = true) ∧
    (handleSearch " \t\n"
      ⟨.networkError "offline", .networkError "offline", false⟩ initialPage).requests = [] :=
  ⟨by decide,
   (handleSearch_blank_input " \t\n" ⟨.networkError "offline", .networkError "offline", false⟩
      initialPage (by decide)).2.2.2.2.2.2.2.2.1⟩

/-- Claim C6: for every input whose trimmed value is non-empty, every starting page
and every pair of request outcomes in either settling order, `handleSearch` first
shows Loading alone, and ends with the loading indicator hidden and the page showing
exactly Results or exactly Error. -/
theorem handleSearch_loading_then_results_or_error (input : String) (net : Network) (p : Page)
    (h : trim input ≠ "") :
    shownViewStates (handleSearchBegin input p).2 = [ViewState.loading] ∧
    (handleSearch input net p).loadingHidden = true ∧
    (shownViewStates (handleSearch input net p) = [ViewState.results] ∨
     shownViewStates (handleSearch input net p) = [ViewState.error]) := by
  have hb := handleSearchBegin_flags input p h
  refine ⟨?_, ?_, ?_⟩
  · simp [shownViewStates, shows, List.filter, hb.1, hb.2.1, hb.2.2.1, hb.2.2.2.1, hb.2.2.2.2.1]
  · rw [handleSearch_of_trim_ne input net p h]
    rcases promiseAll (fetchUserData net.profile) (fetchUserRepositories net.repositories)
      net.repositoriesSettleFirst with message | ⟨userData, repositories⟩
    · exact (handleSearchSettle_error_flags message _).1
    · exact (handleSearchSettle_ok_flags userData repositories _).1
  · rw [handleSearch_of_trim_ne input net p h]
    rcases promiseAll (fetchUserData net.profile) (fetchUserRepositories net.repositories)
      net.repositoriesSettleFirst with message | ⟨userData, repositories⟩
    · right
      have he := handleSearchSettle_error_flags message (handleSearchBegin input p).2
      simp [shownViewStates, shows, List.filter, he.1, he.2.1, he.2.2.1, he.2.2.2.1, he.2.2.2.2]
    · left
      have ho := handleSearchSettle_ok_flags userData repositories (handleSearchBegin input p).2
      simp [shownViewStates, shows, List.filter, ho.1, ho.2.1, ho.2.2.1, ho.2.2.2.1, ho.2.2.2.2,
        hb.2.1]

/-- Instance of the preceding theorem at a concrete input: input `octocat`, both
requests failing in transport. -/
theorem handleSearch_loading_then_results_or_error_witness :
    trim "octocat" ≠ "" ∧
    shownViewStates (handleSearchBegin "octocat" initialPage).2 = [ViewState.loading] ∧
    (handleSearch "octocat" ⟨.networkError "offline", .networkError "offline", false⟩
      initialPage).loadingHidden = true :=
  ⟨by decide,
   (handleSearch_loading_then_results_or_error "octocat"
      ⟨.networkError "offline", .networkError "offline", false⟩ initialPage (by decide)).1,
   (handleSearch_loading_then_results_or_error "octocat"
      ⟨.networkError "offline", .networkError "offline", false⟩ initialPage (by decide)).2.1⟩

/-- Claim C7: for every user record, when both requests succeed and the repository
list is empty, `handleSearch` ends in Results: profile panel and repositories
section visible, error message hidden, and the container holding the single
placeholder and no card. -/
theorem handleSearch_empty_repositories (input : String) (p : Page) (userData : UserData)
    (s₁ s₂ : Nat) (order : Bool) (h : trim input ≠ "")
    (h₁ : responseOk s₁ = true) (h₂ : responseOk s₂ = true) :
    shownViewStates
      (handleSearch input ⟨.response s₁ (.ok userData), .response s₂ (.ok (some [])), order⟩ p)
      = [ViewState.results] ∧
    (handleSearch input ⟨.response s₁ (.ok userData), .response s₂ (.ok (some [])), order⟩
      p).profileHidden = false ∧
    (handleSearch input ⟨.response s₁ (.ok userData), .response s₂ (.ok (some [])), order⟩
      p).reposHidden = false ∧
    (handleSearch input ⟨.response s₁ (.ok userData), .response s₂ (.ok (some [])), order⟩
      p).errorHidden = true ∧
    (handleSearch input ⟨.response s₁ (.ok userData), .response s₂ (.ok (some [])), order⟩
      p).container = [Node.markup noRepositoriesMarkup] ∧
    (∀ c : Card, Node.card c ∉
      (handleSearch input ⟨.response s₁ (.ok userData), .response s₂ (.ok (some [])), order⟩
        p).container) := by
  have hb := handleSearchBegin_flags input p h
  have hr : handleSearch input
      ⟨.response s₁ (.ok userData), .response s₂ (.ok (some [])), order⟩ p =
      handleSearchSettle (.ok (userData, some [])) (handleSearchBegin input p).2 := by
    rw [handleSearch_of_trim_ne input _ p h]
    simp [fetchUserData, fetchUserRepositories, promiseAll, h₁, h₂]
  have ho := handleSearchSettle_ok_flags userData (some []) (handleSearchBegin input p).2
  have hc : (handleSearchSettle (.ok (userData, some [])) (handleSearchBegin input p).2).container
      = [Node.markup noRepositoriesMarkup] := by
    simp [handleSearchSettle, displayRepositories]
  rw [hr]
  refine ⟨?_, ho.2.2.1, ho.2.2.2.1, ho.2.1.trans hb.2.1, hc, ?_⟩
  · simp [shownViewStates, shows, List.filter, ho.1, ho.2.1, ho.2.2.1, ho.2.2.2.1, ho.2.2.2.2,
      hb.2.1]
  · intro c
    rw [hc]
    simp

/-- Instance of the preceding theorem at a concrete input: input `octocat`, both responses
with status 200. -/
theorem handleSearch_empty_repositories_witness :
    trim "octocat" ≠ "" ∧ responseOk 200 = true ∧
    (handleSearch "octocat"
      ⟨.response 200 (.ok ⟨some "octocat", none, none, none, none, none, some 3, none⟩),
       .response 200 (.ok (some [])), false⟩ initialPage).container
      = [Node.markup noRepositoriesMarkup] :=
  ⟨by decide, by decide,
   (handleSearch_empty_repositories "octocat" initialPage
      ⟨some "octocat", none, none, none, none, none, some 3, none⟩ 200 200 false
      (by decide) (by decide) (by decide)).2.2.2.2.1⟩

/-- Claim C4 fails on the code at this input: both endpoints answer 404 for the
unknown identifier and the repositories function settles first, so `Promise.all`
rejects with its error and the error panel reads
`Error: Failed to fetch repositories: 404` instead of `User not found`. -/
theorem handleSearch_notFound_repositories_first :
    (handleSearch "doesnotexist12345"
      ⟨.response 404 (.error "body not read"), .response 404 (.error "body not read"), true⟩
      initialPage).errorText = "Error: Failed to fetch repositories: 404" ∧
    (handleSearch "doesnotexist12345"
      ⟨.response 404 (.error "body not read"), .response 404 (.error "body not read"), true⟩
      initialPage).errorText ≠ "User not found" ∧
    shownViewStates (handleSearch "doesnotexist12345"
      ⟨.response 404 (.error "body not read"), .response 404 (.error "body not read"), true⟩
      initialPage) = [ViewState.error] := by
  decide

/-- When the profile request is answered 404 and the rejection of `fetchUserData` is
the one `Promise.all` delivers (the repositories function fulfils, or the profile
function settles first), the page ends in Error with the text `User not found`. -/
theorem handleSearch_notFound_profile_first (input : String) (p : Page)
    (body : Except String UserData) (repositories : FetchOutcome (Option (List Repo)))
    (order : Bool) (h : trim input ≠ "")
    (hfirst : order = false ∨ ∃ r, fetchUserRepositories repositories = .ok r) :
    (handleSearch input ⟨.response 404 body, repositories, order⟩ p).errorText
      = "User not found" ∧
    shownViewStates (handleSearch input ⟨.response 404 body, repositories, order⟩ p)
      = [ViewState.error] := by
  have hr : handleSearch input ⟨.response 404 body, repositories, order⟩ p =
      handleSearchSettle (.error "User not found") (handleSearchBegin input p).2 := by
    rw [handleSearch_of_trim_ne input _ p h]
    have hu : fetchUserData (.response 404 body) = .error "User not found" := by
      simp [fetchUserData, responseOk]
    simp only [hu]
    rcases hfirst with ho | ⟨r, hr⟩
    · subst ho
      cases fetchUserRepositories repositories <;> simp [promiseAll]
    · rw [hr]
      simp [promiseAll]
  have he := handleSearchSettle_error_flags "User not found" (handleSearchBegin input p).2
  rw [hr]
  refine ⟨?_, ?_⟩
  · simp [handleSearchSettle, showError]
  · simp [shownViewStates, shows, List.filter, he.1, he.2.1, he.2.2.1, he.2.2.2.1, he.2.2.2.2]

/-! ## Interleaved searches: theorems -/

theorem shownViewStates_length_of_shows (p : Page) (v : ViewState) (h : shows p v = true) :
    (shownViewStates p).length = 1 := by
  obtain ⟨a, b, c, d, e, _, _, _, _, _, _, _⟩ := p
  cases v <;> cases a <;> cases b <;> cases c <;> cases d <;> cases e <;>
    simp_all [shows, shownViewStates, List.filter]

theorem shows_validation_prompt (p : Page) (v : ViewState) :
    shows { p with alerts := p.alerts ++ ["Please enter a GitHub username"],
                   inputFocused := true } v = shows p v := by
  cases v <;> rfl

theorem step_preserves (overlap : Bool) (s s₁ : Session) (e : SearchEvent)
    (hinv : SessionInv overlap s) (hstep : step overlap s e = some s₁) :
    SessionInv overlap s₁ := by
  obtain ⟨hI, hS⟩ := hinv
  cases e with
  | search input =>
    by_cases ht : trim input = ""
    · have hs : s₁ = { page := { s.page with
            alerts := s.page.alerts ++ ["Please enter a GitHub username"],
            inputFocused := true }, pending := s.pending } := by
        simp [step, handleSearchBegin, ht] at hstep
        exact hstep.symm
      subst hs
      refine ⟨?_, ?_⟩
      · rcases hI with ⟨v, hv⟩ | hI
        · exact Or.inl ⟨v, by simpa [shows_validation_prompt] using hv⟩
        · exact Or.inr hI
      · rcases hS with hS | ⟨h0, v, hv⟩ | ⟨h1, hv⟩
        · exact Or.inl hS
        · exact Or.inr (Or.inl ⟨h0, v, by simpa [shows_validation_prompt] using hv⟩)
        · exact Or.inr (Or.inr ⟨h1, by simpa [shows_validation_prompt] using hv⟩)
    · have hb := handleSearchBegin_flags input s.page ht
      have hl : shows (handleSearchBegin input s.page).2 ViewState.loading = true := by
        simp [shows, hb.1, hb.2.1, hb.2.2.1, hb.2.2.2.1, hb.2.2.2.2.1]
      have hbeq := handleSearchBegin_of_trim_ne input s.page ht
      simp only [step, hbeq] at hstep
      rw [hbeq] at hl
      by_cases hc : (overlap || decide (s.pending = 0)) = true
      · rw [if_pos hc] at hstep
        have hs := (Option.some.inj hstep).symm
        subst hs
        refine ⟨Or.inl ⟨ViewState.loading, hl⟩, ?_⟩
        rcases hS with hS | ⟨h0, _⟩ | ⟨h1, _⟩
        · exact Or.inl hS
        · exact Or.inr (Or.inr ⟨by simp [h0], hl⟩)
        · cases overlap
          · simp [h1] at hc
          · exact Or.inl rfl
      · rw [if_neg hc] at hstep
        exact absurd hstep (by simp)
  | settle result =>
    by_cases hp : s.pending = 0
    · simp [step, hp] at hstep
    · simp only [step, if_neg hp] at hstep
      have hs := (Option.some.inj hstep).symm
      subst hs
      cases result with
      | error message =>
        have he := handleSearchSettle_error_flags message s.page
        have hv : shows (handleSearchSettle (.error message) s.page) ViewState.error = true := by
          simp [shows, he.1, he.2.1, he.2.2.1, he.2.2.2.1, he.2.2.2.2]
        refine ⟨Or.inl ⟨ViewState.error, hv⟩, ?_⟩
        rcases hS with hS | ⟨h0, _⟩ | ⟨h1, _⟩
        · exact Or.inl hS
        · exact absurd h0 hp
        · exact Or.inr (Or.inl ⟨by simp [h1], ViewState.error, hv⟩)
      | ok pair =>
        obtain ⟨userData, repositories⟩ := pair
        have ho := handleSearchSettle_ok_flags userData repositories s.page
        refine ⟨?_, ?_⟩
        · cases hE : s.page.errorHidden
          · right
            simp [showsResultsWithError, ho.1, ho.2.1, ho.2.2.1, ho.2.2.2.1, ho.2.2.2.2, hE]
          · left
            exact ⟨ViewState.results, by
              simp [shows, ho.1, ho.2.1, ho.2.2.1, ho.2.2.2.1, ho.2.2.2.2, hE]⟩
        · rcases hS with hS | ⟨h0, _⟩ | ⟨h1, hl⟩
          · exact Or.inl hS
          · exact absurd h0 hp
          · have hE : s.page.errorHidden = true := by
              simp [shows] at hl
              exact hl.1.1.1.2
            exact Or.inr (Or.inl ⟨by simp [h1], ViewState.results, by
              simp [shows, ho.1, ho.2.1, ho.2.2.1, ho.2.2.2.1, ho.2.2.2.2, hE]⟩)

theorem runEvents_preserves (overlap : Bool) (evs : List SearchEvent) :
    ∀ s s₁ : Session, SessionInv overlap s → runEvents overlap s evs = some s₁ →
      SessionInv overlap s₁ := by
  induction evs with
  | nil =>
    intro s s₁ hinv hrun
    simp [runEvents] at hrun
    subst hrun
    exact hinv
  | cons e es ih =>
    intro s s₁ hinv hrun
    simp only [runEvents] at hrun
    cases hst : step overlap s e with
    | none => simp [hst] at hrun
    | some s₂ =>
      simp only [hst] at hrun
      exact ih s₂ s₁ (step_preserves overlap s s₂ e hinv hst) hrun

/-- Claim C1, as stated, fails: two searches are started from Welcome, the first to
settle fails and the second then settles successfully; the error message, the
profile and the repositories section are all visible, which is none of the four
view states. -/
theorem overlapping_searches_show_no_view_state :
    (runEvents true ⟨initialPage, 0⟩
      [SearchEvent.search "octocat", SearchEvent.search "torvalds",
       SearchEvent.settle (.error "User not found"),
       SearchEvent.settle
         (.ok (⟨some "torvalds", none, none, none, none, none, none, none⟩, some []))]).map
      (fun s => (shownViewStates s.page, showsResultsWithError s.page, s.pending))
      = some ([], true, 0) := by
  decide

/-- Claim C1, amended: from a page showing Welcome, every state reached by the events
of `handleSearch` shows exactly one of the four view states or shows the error
message together with profile and repositories section (loading indicator and welcome
hidden); when no search starts while another is pending, every reachable state shows
exactly one of the four view states. -/
theorem view_state_exclusive (p₀ : Page) (overlap : Bool) (evs : List SearchEvent)
    (s : Session) (h₀ : shows p₀ ViewState.welcome = true)
    (hrun : runEvents overlap ⟨p₀, 0⟩ evs = some s) :
    ((shownViewStates s.page).length = 1 ∨ showsResultsWithError s.page = true) ∧
    (overlap = true ∨ (shownViewStates s.page).length = 1) := by
  have hinit : SessionInv overlap ⟨p₀, 0⟩ :=
    ⟨Or.inl ⟨ViewState.welcome, h₀⟩, Or.inr (Or.inl ⟨rfl, ViewState.welcome, h₀⟩)⟩
  obtain ⟨hI, hS⟩ := runEvents_preserves overlap evs ⟨p₀, 0⟩ s hinit hrun
  refine ⟨?_, ?_⟩
  · rcases hI with ⟨v, hv⟩ | hI
    · exact Or.inl (shownViewStates_length_of_shows s.page v hv)
    · exact Or.inr hI
  · rcases hS with hS | ⟨_, v, hv⟩ | ⟨_, hv⟩
    · exact Or.inl hS
    · exact Or.inr (shownViewStates_length_of_shows s.page v hv)
    · exact Or.inr (shownViewStates_length_of_shows s.page _ hv)

/-- Instance of the preceding theorem at a concrete input: one search from the initial page that settles
with a failure, no overlap. -/
theorem view_state_exclusive_witness :
    shows initialPage ViewState.welcome = true ∧
    runEvents false ⟨initialPage, 0⟩
      [SearchEvent.search "octocat", SearchEvent.settle (.error "User not found")] =
      some ⟨handleSearchSettle (.error "User not found")
        (handleSearchBegin "octocat" initialPage).2, 0⟩ ∧
    (shownViewStates (handleSearchSettle (.error "User not found")
        (handleSearchBegin "octocat" initialPage).2)).length = 1 :=
  ⟨by decide, by decide,
   ((view_state_exclusive initialPage false
      [SearchEvent.search "octocat", SearchEvent.settle (.error "User not found")]
      ⟨handleSearchSettle (.error "User not found")
        (handleSearchBegin "octocat" initialPage).2, 0⟩ (by decide) (by decide)).2).resolve_left
      (by decide)⟩

/-! ## Sorting of the repository cards: theorems -/

theorem compareStars_le_zero (a b : Repo) : compareStars a b ≤ 0 ↔ stars b ≤ stars a := by
  unfold compareStars stars
  omega

theorem sortInsert_perm {α : Type} (cmp : α → α → Int) (x : α) (l : List α) :
    (sortInsert cmp x l).Perm (x :: l) := by
  induction l with
  | nil => exact List.Perm.refl _
  | cons y ys ih =>
    by_cases h : cmp x y ≤ 0
    · simp [sortInsert, h]
    · simp only [sortInsert, if_neg h]
      exact (List.Perm.cons y ih).trans (List.Perm.swap x y ys)

theorem arraySort_perm {α : Type} (cmp : α → α → Int) (l : List α) :
    (arraySort cmp l).Perm l := by
  induction l with
  | nil => exact List.Perm.refl _
  | cons x xs ih =>
    simp only [arraySort]
    exact (sortInsert_perm cmp x _).trans (List.Perm.cons x ih)

theorem sortInsert_descending (x : Repo) (l : List Repo)
    (h : l.Pairwise (fun a b => stars b ≤ stars a)) :
    (sortInsert compareStars x l).Pairwise (fun a b => stars b ≤ stars a) := by
  induction l with
  | nil => simp [sortInsert]
  | cons y ys ih =>
    rw [List.pairwise_cons] at h
    by_cases hc : compareStars x y ≤ 0
    · simp only [sortInsert, if_pos hc]
      have hxy := (compareStars_le_zero x y).mp hc
      refine List.pairwise_cons.mpr ⟨?_, List.pairwise_cons.mpr h⟩
      intro z hz
      rcases List.mem_cons.mp hz with hz | hz
      · subst hz
        exact hxy
      · exact le_trans (h.1 z hz) hxy
    · simp only [sortInsert, if_neg hc]
      have hxy : stars x ≤ stars y := by
        have := (compareStars_le_zero x y).not.mp hc
        omega
      refine List.pairwise_cons.mpr ⟨?_, ih h.2⟩
      intro z hz
      rcases List.mem_cons.mp ((sortInsert_perm compareStars x ys).mem_iff.mp hz) with hz | hz
      · subst hz
        exact hxy
      · exact h.1 z hz

theorem arraySort_descending (l : List Repo) :
    (arraySort compareStars l).Pairwise (fun a b => stars b ≤ stars a) := by
  induction l with
  | nil => simp [arraySort]
  | cons x xs ih => exact sortInsert_descending x _ ih

theorem sortInsert_filter_stars (k : Nat) (x : Repo) (l : List Repo) :
    (sortInsert compareStars x l).filter (fun r => decide (stars r = k)) =
      (x :: l).filter (fun r => decide (stars r = k)) := by
  induction l with
  | nil => simp [sortInsert]
  | cons y ys ih =>
    by_cases hc : compareStars x y ≤ 0
    · simp only [sortInsert, if_pos hc]
    · simp only [sortInsert, if_neg hc]
      have hxy : stars x < stars y := by
        have := (compareStars_le_zero x y).not.mp hc
        omega
      by_cases hx : stars x = k
      · have hy : stars y ≠ k := by omega
        simp [List.filter_cons, hx, hy] at ih ⊢
        exact ih
      · simp [List.filter_cons, hx] at ih ⊢
        by_cases hy : stars y = k
        · simp [hy, ih]
        · simp [hy, ih]

theorem arraySort_filter_stars (k : Nat) (l : List Repo) :
    (arraySort compareStars l).filter (fun r => decide (stars r = k)) =
      l.filter (fun r => decide (stars r = k)) := by
  induction l with
  | nil => simp [arraySort]
  | cons x xs ih =>
    simp only [arraySort]
    rw [sortInsert_filter_stars, List.filter_cons, List.filter_cons, ih]

/-- Claim C2: for a non-empty repository list, the cards `displayRepositories` puts in
the container are the cards of `sortedRepos`, which is a permutation of the input,
is in descending order of star count (missing counted as 0), and keeps the input
order among repositories of equal star count; star counts 3, 10, 1 in any input
order are rendered as 10, 3, 1. -/
theorem displayRepositories_stable_descending (repositories : List Repo) (p : Page)
    (h : repositories ≠ []) :
    (displayRepositories (some repositories) p).container =
      (sortedRepos repositories).map (fun repo => Node.card (repoCard repo)) ∧
    (sortedRepos repositories).Perm repositories ∧
    (sortedRepos repositories).Pairwise (fun a b => stars b ≤ stars a) ∧
    (∀ k : Nat, (sortedRepos repositories).filter (fun r => decide (stars r = k)) =
      repositories.filter (fun r => decide (stars r = k))) ∧
    ((repositories.map stars).Perm [3, 10, 1] →
      (sortedRepos repositories).map stars = [10, 3, 1]) := by
  refine ⟨?_, arraySort_perm _ _, arraySort_descending _, ?_, ?_⟩
  · cases repositories with
    | nil => exact absurd rfl h
    | cons r rs => rfl
  · intro k
    exact arraySort_filter_stars k repositories
  · intro hp
    have h₁ : ((sortedRepos repositories).map stars).Perm [10, 3, 1] :=
      ((arraySort_perm compareStars repositories).map stars).trans
        (hp.trans (by decide))
    have h₂ : ((sortedRepos repositories).map stars).Sorted (· ≥ ·) := by
      rw [List.Sorted, List.pairwise_map]
      exact arraySort_descending repositories
    exact List.eq_of_perm_of_sorted h₁ h₂ (by decide)

/-- Instance of the preceding theorem at a concrete input: three repositories with star
counts 1, 10 and 3, in that input order. -/
theorem displayRepositories_stable_descending_witness :
    ([⟨"a", none, "u1", some 1⟩, ⟨"b", none, "u2", some 10⟩, ⟨"c", none, "u3", some 3⟩]
      : List Repo) ≠ [] ∧
    ((([⟨"a", none, "u1", some 1⟩, ⟨"b", none, "u2", some 10⟩, ⟨"c", none, "u3", some 3⟩]
      : List Repo).map stars).Perm [3, 10, 1]) ∧
    (sortedRepos [⟨"a", none, "u1", some 1⟩, ⟨"b", none, "u2", some 10⟩,
      ⟨"c", none, "u3", some 3⟩]).map stars = [10, 3, 1] :=
  ⟨by decide, by decide,
   (displayRepositories_stable_descending
      [⟨"a", none, "u1", some 1⟩, ⟨"b", none, "u2", some 10⟩, ⟨"c", none, "u3", some 3⟩]
      initialPage (by decide)).2.2.2.2 (by decide)⟩

/-! ## Escaping: theorems -/

theorem escapeChar_cases (c : Char) :
    (c = '&' ∧ escapeChar c = ['&', 'a', 'm', 'p', ';']) ∨
    (c = Char.ofNat 160 ∧ escapeChar c = ['&', 'n', 'b', 's', 'p', ';']) ∨
    (c = '<' ∧ escapeChar c = ['&', 'l', 't', ';']) ∨
    (c = '>' ∧ escapeChar c = ['&', 'g', 't', ';']) ∨
    (c ≠ '&' ∧ c ≠ Char.ofNat 160 ∧ c ≠ '<' ∧ c ≠ '>' ∧ escapeChar c = [c]) := by
  by_cases h₁ : c = '&'
  · subst h₁; exact Or.inl ⟨rfl, by decide⟩
  by_cases h₂ : c = Char.ofNat 160
  · subst h₂; exact Or.inr (Or.inl ⟨rfl, by decide⟩)
  by_cases h₃ : c = '<'
  · subst h₃; exact Or.inr (Or.inr (Or.inl ⟨rfl, by decide⟩))
  by_cases h₄ : c = '>'
  · subst h₄; exact Or.inr (Or.inr (Or.inr (Or.inl ⟨rfl, by decide⟩)))
  exact Or.inr (Or.inr (Or.inr (Or.inr ⟨h₁, h₂, h₃, h₄, by simp [escapeChar, h₁, h₂, h₃, h₄]⟩)))

theorem escapeChars_no_angle (l : List Char) :
    '<' ∉ escapeChars l ∧ '>' ∉ escapeChars l := by
  induction l with
  | nil => simp [escapeChars]
  | cons c cs ih =>
    simp only [escapeChars, List.mem_append, not_or]
    rcases escapeChar_cases c with ⟨_, h⟩ | ⟨_, h⟩ | ⟨_, h⟩ | ⟨_, h⟩ | ⟨_, _, h₃, h₄, h⟩
    · rw [h]; exact ⟨⟨by decide, ih.1⟩, ⟨by decide, ih.2⟩⟩
    · rw [h]; exact ⟨⟨by decide, ih.1⟩, ⟨by decide, ih.2⟩⟩
    · rw [h]; exact ⟨⟨by decide, ih.1⟩, ⟨by decide, ih.2⟩⟩
    · rw [h]; exact ⟨⟨by decide, ih.1⟩, ⟨by decide, ih.2⟩⟩
    · rw [h]
      exact ⟨⟨by simpa using Ne.symm h₃, ih.1⟩, ⟨by simpa using Ne.symm h₄, ih.2⟩⟩

theorem escapeChars_ampersands (l : List Char) :
    ampersandsBegin htmlEntities (escapeChars l) = true ∧
    (Char.ofNat 160 ∈ l ∨ ampersandsBegin namedEntities (escapeChars l) = true) := by
  unfold htmlEntities namedEntities
  induction l with
  | nil => simp [escapeChars, ampersandsBegin]
  | cons c cs ih =>
    simp only [escapeChars]
    rcases escapeChar_cases c with ⟨_, h⟩ | ⟨hc, h⟩ | ⟨_, h⟩ | ⟨_, h⟩ | ⟨h₁, _, _, _, h⟩
    · rw [h]
      refine ⟨?_, ?_⟩
      · simp [ampersandsBegin, startsWith, ih.1]
      · rcases ih.2 with h160 | hn
        · exact Or.inl (List.mem_cons_of_mem _ h160)
        · right
          simp [ampersandsBegin, startsWith, hn]
    · rw [h]
      refine ⟨?_, Or.inl (by simp [hc])⟩
      simp [ampersandsBegin, startsWith, ih.1]
    · rw [h]
      refine ⟨?_, ?_⟩
      · simp [ampersandsBegin, startsWith, ih.1]
      · rcases ih.2 with h160 | hn
        · exact Or.inl (List.mem_cons_of_mem _ h160)
        · right
          simp [ampersandsBegin, startsWith, hn]
    · rw [h]
      refine ⟨?_, ?_⟩
      · simp [ampersandsBegin, startsWith, ih.1]
      · rcases ih.2 with h160 | hn
        · exact Or.inl (List.mem_cons_of_mem _ h160)
        · right
          simp [ampersandsBegin, startsWith, hn]
    · rw [h]
      refine ⟨?_, ?_⟩
      · simp [ampersandsBegin, h₁, ih.1]
      · rcases ih.2 with h160 | hn
        · exact Or.inl (List.mem_cons_of_mem _ h160)
        · right
          simp [ampersandsBegin, h₁, hn]

theorem decodeFrom_escapeChars (l : List Char) : decodeFrom 0 (escapeChars l) = l := by
  induction l with
  | nil => simp [escapeChars, decodeFrom]
  | cons c cs ih =>
    simp only [escapeChars]
    rcases escapeChar_cases c with ⟨hc, h⟩ | ⟨hc, h⟩ | ⟨hc, h⟩ | ⟨hc, h⟩ | ⟨h₁, _, _, _, h⟩
    · rw [h, hc]
      simp [decodeFrom, startsWith, ih]
    · rw [h, hc]
      simp [decodeFrom, startsWith, ih]
    · rw [h, hc]
      simp [decodeFrom, startsWith, ih]
    · rw [h, hc]
      simp [decodeFrom, startsWith, ih]
    · rw [h]
      simp [decodeFrom, startsWith, Ne.symm h₁, ih]

/-- Claim C3, as stated, fails: the escaped form of a no-break space (U+00A0) is
`&nbsp;`, whose `&` begins none of `&amp;`, `&lt;`, `&gt;`. -/
theorem escapeHtml_nbsp_entity :
    escapeHtml (String.mk [Char.ofNat 160]) = "&nbsp;" ∧
    ampersandsBegin namedEntities (escapeHtml (String.mk [Char.ofNat 160])).data = false := by
  decide

theorem repoCard_markup (repo : Repo) :
    repoCard repo =
      { href := repo.html_url, target := "_blank", rel := "noopener noreferrer",
        className := "repo-card",
        innerHTML := cardMarkup (escapeHtml repo.name)
          (match repo.description with
           | some d => if d = "" then "<em>No description</em>" else escapeHtml d
           | none => "<em>No description</em>")
          (toString (countOrZero repo.stargazers_count)) } := by
  obtain ⟨name, description, url, count⟩ := repo
  cases description with
  | none => simp [repoCard, truthy]
  | some d =>
    by_cases hd : d = ""
    · simp [repoCard, truthy, hd]
    · simp [repoCard, truthy, orElse, hd]

/-- Claim C3, amended: every repository of the list has a card in the container whose
markup holds `escapeHtml` of its name, whatever its description, and `escapeHtml` of
its description when that is a non-empty string (the fixed `No description` markup
otherwise), and the container holds nothing but these cards; for every string `s`,
`escapeHtml s` holds no `<` and no `>`, every `&` in it begins one of `&amp;`,
`&lt;`, `&gt;`, `&nbsp;` (the last one only when `s` holds U+00A0), and decoding
these references gives `s` back; `<script>` becomes `&lt;script&gt;`. -/
theorem escapeHtml_in_cards (repositories : List Repo) (p : Page) (repo : Repo)
    (s : String) (hmem : repo ∈ repositories) :
    Node.card
      { href := repo.html_url, target := "_blank", rel := "noopener noreferrer",
        className := "repo-card",
        innerHTML := cardMarkup (escapeHtml repo.name)
          (match repo.description with
           | some d => if d = "" then "<em>No description</em>" else escapeHtml d
           | none => "<em>No description</em>")
          (toString (countOrZero repo.stargazers_count)) }
      ∈ (displayRepositories (some repositories) p).container ∧
    (∀ n ∈ (displayRepositories (some repositories) p).container,
      ∃ r ∈ repositories, n = Node.card
        { href := r.html_url, target := "_blank", rel := "noopener noreferrer",
          className := "repo-card",
          innerHTML := cardMarkup (escapeHtml r.name)
            (match r.description with
             | some d => if d = "" then "<em>No description</em>" else escapeHtml d
             | none => "<em>No description</em>")
            (toString (countOrZero r.stargazers_count)) }) ∧
    '<' ∉ (escapeHtml s).data ∧ '>' ∉ (escapeHtml s).data ∧
    ampersandsBegin htmlEntities (escapeHtml s).data = true ∧
    (Char.ofNat 160 ∈ s.data ∨ ampersandsBegin namedEntities (escapeHtml s).data = true) ∧
    decodeEntities (escapeHtml s) = s ∧
    escapeHtml "<script>" = "&lt;script&gt;" := by
  have hc : (displayRepositories (some repositories) p).container =
      (sortedRepos repositories).map (fun r => Node.card (repoCard r)) := by
    cases repositories with
    | nil => simp at hmem
    | cons r rs => rfl
  refine ⟨?_, ?_, (escapeChars_no_angle s.data).1, (escapeChars_no_angle s.data).2,
    (escapeChars_ampersands s.data).1, (escapeChars_ampersands s.data).2, ?_, by decide⟩
  · have hs : repo ∈ sortedRepos repositories :=
      (arraySort_perm compareStars repositories).mem_iff.mpr hmem
    rw [hc, ← repoCard_markup repo]
    exact List.mem_map.mpr ⟨repo, hs, rfl⟩
  · intro n hn
    rw [hc] at hn
    obtain ⟨r, hr, hrn⟩ := List.mem_map.mp hn
    refine ⟨r, (arraySort_perm compareStars repositories).mem_iff.mp hr, ?_⟩
    rw [← repoCard_markup r]
    exact hrn.symm
  · simp [decodeEntities, escapeHtml, decodeFrom_escapeChars]

/-- Instance of the preceding theorem at a concrete input: two repositories, the first with a
script tag as description, the second with markup in its name and no description. -/
theorem escapeHtml_in_cards_witness :
    (⟨"<b>", none, "https://example.org/b", none⟩ : Repo) ∈
      [(⟨"demo", some "<script>", "https://example.org/demo", some 2⟩ : Repo),
       ⟨"<b>", none, "https://example.org/b", none⟩] ∧
    Node.card
      { href := "https://example.org/b", target := "_blank", rel := "noopener noreferrer",
        className := "repo-card",
        innerHTML := cardMarkup (escapeHtml "<b>") "<em>No description</em>"
          (toString (countOrZero none)) }
      ∈ (displayRepositories
          (some [⟨"demo", some "<script>", "https://example.org/demo", some 2⟩,
                 ⟨"<b>", none, "https://example.org/b", none⟩])
          initialPage).container ∧
    Node.card
      { href := "https://example.org/demo", target := "_blank", rel := "noopener noreferrer",
        className := "repo-card",
        innerHTML := cardMarkup (escapeHtml "demo") (escapeHtml "<script>")
          (toString (countOrZero (some 2))) }
      ∈ (displayRepositories
          (some [⟨"demo", some "<script>", "https://example.org/demo", some 2⟩,
                 ⟨"<b>", none, "https://example.org/b", none⟩])
          initialPage).container :=
  ⟨by decide,
   (escapeHtml_in_cards
      [⟨"demo", some "<script>", "https://example.org/demo", some 2⟩,
       ⟨"<b>", none, "https://example.org/b", none⟩]
      initialPage ⟨"<b>", none, "https://example.org/b", none⟩ "&" (by decide)).1,
   (escapeHtml_in_cards
      [⟨"demo", some "<script>", "https://example.org/demo", some 2⟩,
       ⟨"<b>", none, "https://example.org/b", none⟩]
      initialPage ⟨"demo", some "<script>", "https://example.org/demo", some 2⟩ "&"
      (by decide)).1⟩

end GithubUserExplorer
